import Mathlib

/-!
Verification of the Agent-Runner orchestration core against its design
specification.  The Python sources under `src/agent_runner` are shallowly
embedded: pure computations become Lean functions, HTTP interactions are
parameterized by an explicit environment of responses, raised exceptions
become `Except` error values, and wall-clock time is a natural-number
logical clock advanced only by the poll-loop sleeps.
-/

/-! ## Byte strings and SHA-256 / HMAC (used by callback.py signatures)

Bytes are `List Nat` with values below 256.  The SHA-256 core works on
32-bit words represented as `Nat` reduced modulo `2 ^ 32`.
-/

def w32 (n : Nat) : Nat := n % 4294967296

def rotr32 (n x : Nat) : Nat := w32 ((x >>> n) ||| (x <<< (32 - n)))

def shr32 (n x : Nat) : Nat := x >>> n

def not32 (x : Nat) : Nat := x ^^^ 4294967295

def sha256ch (x y z : Nat) : Nat := (x &&& y) ^^^ (not32 x &&& z)

def sha256maj (x y z : Nat) : Nat := (x &&& y) ^^^ (x &&& z) ^^^ (y &&& z)

def bigSigma0 (x : Nat) : Nat := rotr32 2 x ^^^ rotr32 13 x ^^^ rotr32 22 x

def bigSigma1 (x : Nat) : Nat := rotr32 6 x ^^^ rotr32 11 x ^^^ rotr32 25 x

def smallSigma0 (x : Nat) : Nat := rotr32 7 x ^^^ rotr32 18 x ^^^ shr32 3 x

def smallSigma1 (x : Nat) : Nat := rotr32 17 x ^^^ rotr32 19 x ^^^ shr32 10 x

/-- The 64 SHA-256 round constants, written in decimal. -/
def sha256K : List Nat :=
  [1116352408, 1899447441, 3049323471, 3921009573, 961987163,
   1508970993, 2453635748, 2870763221, 3624381080, 310598401,
   607225278, 1426881987, 1925078388, 2162078206, 2614888103,
   3248222580, 3835390401, 4022224774, 264347078, 604807628,
   770255983, 1249150122, 1555081692, 1996064986, 2554220882,
   2821834349, 2952996808, 3210313671, 3336571891, 3584528711,
   113926993, 338241895, 666307205, 773529912, 1294757372,
   1396182291, 1695183700, 1986661051, 2177026350, 2456956037,
   2730485921, 2820302411, 3259730800, 3345764771, 3516065817,
   3600352804, 4094571909, 275423344, 430227734, 506948616,
   659060556, 883997877, 958139571, 1322822218, 1537002063,
   1747873779, 1955562222, 2024104815, 2227730452, 2361852424,
   2428436474, 2756734187, 3204031479, 3329325298]

/-- The eight SHA-256 initial hash words, written in decimal. -/
def sha256H0 : List Nat :=
  [1779033703, 3144134277, 1013904242, 2773480762,
   1359893119, 2600822924, 528734635, 1541459225]

/-- Big-endian byte decomposition of `n` into `count` bytes. -/
def beBytes (n count : Nat) : List Nat :=
  (List.range count).map (fun i => (n >>> (8 * (count - 1 - i))) % 256)

/-- Group a byte list into big-endian 32-bit words. -/
def bytesToWords : List Nat → List Nat
  | a :: b :: c :: d :: rest =>
      (a * 16777216 + b * 65536 + c * 256 + d) :: bytesToWords rest
  | _ => []

/-- SHA-256 message padding: append `0x80`, zeros up to 56 mod 64, then the
64-bit big-endian bit length. -/
def sha256pad (msg : List Nat) : List Nat :=
  let L := msg.length
  let k := (120 - (L + 1) % 64) % 64
  msg ++ [0x80] ++ List.replicate k 0 ++ beBytes (L * 8) 8

/-- Split a byte list into 64-byte blocks. -/
def chunk64 : List Nat → List (List Nat)
  | [] => []
  | l@(_ :: _) => l.take 64 :: chunk64 (l.drop 64)
termination_by l => l.length
decreasing_by simp_all [List.length_drop]; omega

/-- Extend 16 schedule words by one more word. -/
def scheduleStep (ws : List Nat) : List Nat :=
  let n := ws.length
  ws ++ [w32 (smallSigma1 (ws.getD (n - 2) 0) + ws.getD (n - 7) 0 +
              smallSigma0 (ws.getD (n - 15) 0) + ws.getD (n - 16) 0)]

/-- The 64-entry message schedule of one block. -/
def sha256schedule (block : List Nat) : List Nat :=
  (List.range 48).foldl (fun ws _ => scheduleStep ws) (bytesToWords block)

/-- One compression round on the eight working registers. -/
def sha256round (st : List Nat) (kw : Nat × Nat) : List Nat :=
  match st with
  | [a, b, c, d, e, f, g, h] =>
      let t1 := w32 (h + bigSigma1 e + sha256ch e f g + kw.1 + kw.2)
      let t2 := w32 (bigSigma0 a + sha256maj a b c)
      [w32 (t1 + t2), a, b, c, w32 (d + t1), e, f, g]
  | other => other

/-- Compress one 64-byte block into the running hash state. -/
def sha256compress (st : List Nat) (block : List Nat) : List Nat :=
  let ws := sha256schedule block
  let fin := (sha256K.zip ws).foldl sha256round st
  (st.zip fin).map (fun p => w32 (p.1 + p.2))

/-- SHA-256 of a byte string, as 32 bytes. -/
def sha256 (msg : List Nat) : List Nat :=
  ((chunk64 (sha256pad msg)).foldl sha256compress sha256H0).flatMap
    (fun w => beBytes w 4)

/-- HMAC-SHA256 (RFC 2104) with block size 64, as 32 bytes. -/
def hmacSha256 (key msg : List Nat) : List Nat :=
  let k0 := if key.length > 64 then sha256 key else key
  let k := k0 ++ List.replicate (64 - k0.length) 0
  let ipadded := k.map (fun b => b ^^^ 0x36)
  let opadded := k.map (fun b => b ^^^ 0x5c)
  sha256 (opadded ++ sha256 (ipadded ++ msg))

def hexChar (n : Nat) : Char :=
  if n < 10 then Char.ofNat (48 + n) else Char.ofNat (87 + n)

/-- Lowercase hexadecimal digit pairs of a byte string. -/
def hexChars : List Nat → List Char
  | [] => []
  | b :: bs => hexChar (b / 16) :: hexChar (b % 16) :: hexChars bs

/-- Lowercase hexadecimal rendering of a byte string. -/
def hexOfBytes (bs : List Nat) : String :=
  String.mk (hexChars bs)

/-- UTF-8 bytes of a string, mirroring Python `str.encode()`. -/
def strBytes (s : String) : List Nat := s.toUTF8.toList.map (fun b => b.toNat)

/-! ## callback.py — CallbackHandler -/

/-- Python truthiness of an `Optional[str]`: `None` and `""` are falsy. -/
def optStrTruthy (o : Option String) : Bool := o.getD ("") != ""

structure CallbackHandler where
  webhook_secret : Option String
  allow_insecure : Bool

namespace CallbackHandler

/-- `CallbackHandler.generate_signature`: empty result without a secret,
otherwise a fixed prefix plus the lowercase hex HMAC-SHA256 digest. -/
def generate_signature (h : CallbackHandler) (payload : List Nat) : String :=
  if !optStrTruthy h.webhook_secret then ("")
  else "sha256=" ++ hexOfBytes (hmacSha256 (strBytes (h.webhook_secret.getD (""))) payload)

/-- `CallbackHandler.verify_signature`: without a secret, accept only in
insecure mode; with a secret, recompute and compare (`hmac.compare_digest`
is value-wise string equality). -/
def verify_signature (h : CallbackHandler) (payload : List Nat) (signature : String) : Bool :=
  if !optStrTruthy h.webhook_secret then
    if h.allow_insecure then true else false
  else
    generate_signature h payload == signature

end CallbackHandler

/-- Supporting result (first half of the signature round-trip property):
with any configured non-empty secret, a freshly generated signature always
verifies against the payload it was generated from. -/
theorem verify_generate_roundtrip (secret : String) (hs : secret ≠ "")
    (ins : Bool) (payload : List Nat) :
    CallbackHandler.verify_signature ⟨some secret, ins⟩ payload
      (CallbackHandler.generate_signature ⟨some secret, ins⟩ payload) = true := by
  have ht : optStrTruthy (some secret) = true := by
    simp [optStrTruthy, hs]
  simp [CallbackHandler.verify_signature, ht]

theorem hexChar_inj : ∀ m < 16, ∀ n < 16, hexChar m = hexChar n → m = n := by
  decide

theorem byte_hex_inj {b c : Nat} (hb : b < 256) (hc : c < 256)
    (h1 : hexChar (b / 16) = hexChar (c / 16))
    (h2 : hexChar (b % 16) = hexChar (c % 16)) : b = c := by
  have e1 : b / 16 = c / 16 :=
    hexChar_inj _ (Nat.div_lt_of_lt_mul hb) _ (Nat.div_lt_of_lt_mul hc) h1
  have e2 : b % 16 = c % 16 :=
    hexChar_inj _ (Nat.mod_lt _ (by norm_num)) _ (Nat.mod_lt _ (by norm_num)) h2
  omega

theorem hexChars_inj : ∀ {bs cs : List Nat}, (∀ b ∈ bs, b < 256) →
    (∀ c ∈ cs, c < 256) → hexChars bs = hexChars cs → bs = cs
  | [], [], _, _, _ => rfl
  | [], _ :: _, _, _, h => by simp [hexChars] at h
  | _ :: _, [], _, _, h => by simp [hexChars] at h
  | b :: bs, c :: cs, hb, hc, h => by
    simp only [hexChars, List.cons.injEq] at h
    obtain ⟨h1, h2, h3⟩ := h
    have hbc : b = c :=
      byte_hex_inj (hb b (List.mem_cons_self b bs)) (hc c (List.mem_cons_self c cs)) h1 h2
    have htail : bs = cs :=
      hexChars_inj (fun x hx => hb x (List.mem_cons_of_mem _ hx))
        (fun x hx => hc x (List.mem_cons_of_mem _ hx)) h3
    rw [hbc, htail]

theorem beBytes_lt (n count : Nat) : ∀ b ∈ beBytes n count, b < 256 := by
  intro b hb
  simp only [beBytes, List.mem_map, List.mem_range] at hb
  obtain ⟨i, _, rfl⟩ := hb
  exact Nat.mod_lt _ (by norm_num)

theorem sha256_bytes_lt (msg : List Nat) : ∀ b ∈ sha256 msg, b < 256 := by
  intro b hb
  simp only [sha256, List.mem_flatMap] at hb
  obtain ⟨w, _, hw⟩ := hb
  exact beBytes_lt _ _ _ hw

theorem hmacSha256_bytes_lt (key msg : List Nat) : ∀ b ∈ hmacSha256 key msg, b < 256 :=
  fun b hb => sha256_bytes_lt _ b hb

/-- Supporting result: with a configured secret, verification of a candidate
payload against a signature generated from an original payload succeeds
exactly when the two HMAC digests agree; so a payload mutation defeats
verification if and only if it changes the HMAC-SHA256 digest. -/
theorem verify_mutation_iff_digest_eq (secret : String) (hs : secret ≠ "")
    (ins : Bool) (original mutated : List Nat) :
    CallbackHandler.verify_signature ⟨some secret, ins⟩ mutated
      (CallbackHandler.generate_signature ⟨some secret, ins⟩ original) = true ↔
    hmacSha256 (strBytes secret) mutated = hmacSha256 (strBytes secret) original := by
  have ht : optStrTruthy (some secret) = true := by
    simp [optStrTruthy, hs]
  simp only [CallbackHandler.verify_signature, CallbackHandler.generate_signature, ht,
    Bool.not_true, Bool.false_eq_true, if_false, beq_iff_eq, Option.getD_some,
    hexOfBytes, String.append]
  constructor
  · intro h
    have hl : hexChars (hmacSha256 (strBytes secret) mutated) =
        hexChars (hmacSha256 (strBytes secret) original) := by
      have := congrArg String.data h
      simpa using this
    exact hexChars_inj (hmacSha256_bytes_lt _ _) (hmacSha256_bytes_lt _ _) hl
  · intro h
    rw [h]

/-! ## callback.py — send_callback retry loop

One POST attempt is observed as an HTTP response with a status code, a
transport-level `httpx.RequestError`, or any other exception.  The loop is
embedded as structural recursion on the number of remaining attempts; the
result pairs the returned boolean with the number of POST attempts made.
-/

inductive AttemptOutcome where
  | response (status : Nat)
  | transportError
  | otherError
deriving DecidableEq, Repr

/-- An outcome the loop retries: a 429 or 5xx response that is not a
success, or a transport-level exception. -/
def isTransient : AttemptOutcome → Bool
  | .response s => !(s < 400) && (s == 429 || s ≥ 500)
  | .transportError => true
  | .otherError => false

/-- The attempt loop body of `CallbackHandler.send_callback`, for attempts
numbered `attempt, attempt+1, ...` with `remaining` attempts left. -/
def sendAttempts (outcomes : Nat → AttemptOutcome) : Nat → Nat → Bool × Nat
  | _, 0 => (false, 0)
  | attempt, remaining + 1 =>
    match outcomes attempt with
    | .response s =>
      if s < 400 then (true, 1)
      else if s == 429 || s ≥ 500 then
        let r := sendAttempts outcomes (attempt + 1) remaining
        (r.1, r.2 + 1)
      else (false, 1)
    | .transportError =>
      let r := sendAttempts outcomes (attempt + 1) remaining
      (r.1, r.2 + 1)
    | .otherError => (false, 1)

/-- `CallbackHandler.send_callback`: skip (returning failure) on an empty
URL, otherwise run the attempt loop.  The serialized payload does not
influence control flow; it is kept as a parameter for fidelity. -/
def send_callback (callback_url : String) (payload : String)
    (outcomes : Nat → AttemptOutcome) (max_attempts : Nat) : Bool × Nat :=
  if callback_url == "" then (false, 0)
  else sendAttempts outcomes 1 max_attempts

/-! ## models.py — JobStatus and Job -/

inductive JobStatus where
  | pending
  | forking
  | fork_ready
  | triggered
  | running
  | completed
  | failed
  | cancelled
deriving DecidableEq, Repr

structure Job where
  job_id : String
  upstream_repo : String
  prompt : String
  callback_url : Option String
  status : JobStatus
  fork_repo : Option String
  branch : Option String
  pr_url : Option String
  workflow_run_id : Option Int
  error : Option String
  created_at : Nat
  updated_at : Nat
deriving DecidableEq, Repr

namespace Job

/-- A freshly constructed `Job`.  The two dataclass default factories call
the clock in turn, so construction observes two times `t0 ≤ t1`. -/
def new (job_id upstream_repo prompt : String) (callback_url : Option String)
    (t0 t1 : Nat) : Job :=
  ⟨job_id, upstream_repo, prompt, callback_url, .pending,
   none, none, none, none, none, t0, t1⟩

/-- `Job.update_status`: set the status and refresh `updated_at`. -/
def update_status (j : Job) (status : JobStatus) (now : Nat) : Job :=
  { j with status := status, updated_at := now }

/-- `Job.mark_completed`: set COMPLETED, record `pr_url`, refresh
`updated_at`. -/
def mark_completed (j : Job) (pr_url : Option String) (now : Nat) : Job :=
  { j with status := .completed, pr_url := pr_url, updated_at := now }

/-- `Job.mark_failed`: set FAILED, record the error, refresh
`updated_at`. -/
def mark_failed (j : Job) (error : String) (now : Nat) : Job :=
  { j with status := .failed, error := some error, updated_at := now }

end Job

/-- One of the three mutation operations of `Job`. -/
inductive JobOp where
  | updateStatus (s : JobStatus)
  | markCompleted (pr : Option String)
  | markFailed (e : String)
deriving DecidableEq, Repr

def Job.applyOp (j : Job) : JobOp → Nat → Job
  | .updateStatus s, t => j.update_status s t
  | .markCompleted pr, t => j.mark_completed pr t
  | .markFailed e, t => j.mark_failed e t

/-- Apply a sequence of mutations, each stamped with the clock value its
`datetime.now()` call observes. -/
def Job.applyOps (j : Job) : List (JobOp × Nat) → Job
  | [] => j
  | (op, t) :: rest => (j.applyOp op t).applyOps rest

/-- The wall clock never runs backwards: each mutation observes a time at
least the job's current `updated_at`. -/
def clockMono (j : Job) : List (JobOp × Nat) → Bool
  | [] => true
  | (op, t) :: rest => decide (j.updated_at ≤ t) && clockMono (j.applyOp op t) rest

/-- Jobs reachable from a fresh construction by mutation operations under a
monotone clock. -/
inductive JobReachable : Job → Prop where
  | new (job_id upstream_repo prompt : String) (callback_url : Option String)
      (t0 t1 : Nat) (h : t0 ≤ t1) :
      JobReachable (Job.new job_id upstream_repo prompt callback_url t0 t1)
  | step (j : Job) (op : JobOp) (t : Nat) (hj : JobReachable j)
      (ht : j.updated_at ≤ t) : JobReachable (j.applyOp op t)

/-- The documented `Job` invariant: timestamps ordered, `error` set exactly
on FAILED, `pr_url` set only on COMPLETED. -/
def jobInvariant (j : Job) : Prop :=
  j.created_at ≤ j.updated_at ∧
  (j.error.isSome ↔ j.status = .failed) ∧
  (j.pr_url.isSome → j.status = .completed)

/-! ## github/client.py, github/repo.py, github/pr.py

Remote interactions are parameterized by an environment of responses.  A
call either completes with an HTTP status and a typed JSON body, or fails
at transport level (`httpx` raising a `RequestError`, which the gateway
never converts into a status).  The wait loop's probes are indexed by the
iteration number because remote fork state evolves between polls.
-/

inductive HttpResult (α : Type) where
  | ok (status : Nat) (body : α)
  | netErr (msg : String)
deriving DecidableEq, Repr

/-- The JSON fields of `GET /repos/{repo}` the code reads. -/
structure RepoInfo where
  default_branch : Option String
  fork : Bool
  parent_full_name : Option String
deriving DecidableEq, Repr

/-- The JSON body posted by `PRManager.create_pr`. -/
structure PRCreateBody where
  title : String
  head : String
  base : String
  body : String
deriving DecidableEq, Repr

/-- The JSON fields of the PR-creation response the code reads: `html_url`
on success, `message` and the per-field `errors[].message` on failure. -/
structure PRRespBody where
  html_url : Option String
  message : Option String
  errors : List (Option String)
deriving DecidableEq, Repr

/-- One element of the PR discovery listing. -/
structure PRItem where
  html_url : Option String
deriving DecidableEq, Repr

/-- A request issued against the remote API. -/
inductive Req where
  | getRepo (repo : String)
  | getBranches (repo : String)
  | postForks (repo : String)
  | postMergeUpstream (repo branch : String)
  | postPulls (repo : String) (body : PRCreateBody)
  | getPulls (repo head state : String) (perPage : Nat)
deriving DecidableEq, Repr

/-- Requests that mutate remote state (fork creation, merge, PR creation);
the GETs merely observe.  None of the API surface deletes or overwrites a
repository wholesale. -/
def mutatesRemote : Req → Bool
  | .getRepo _ => false
  | .getBranches _ => false
  | .getPulls _ _ _ _ => false
  | .postForks _ => true
  | .postMergeUpstream _ _ => true
  | .postPulls _ _ => true

/-- What one wait-loop iteration observes. -/
structure Probe where
  repo : HttpResult Unit
  branches : HttpResult (List String)

/-- Responses of the remote API. -/
structure Env where
  repoResp : String → HttpResult RepoInfo
  forksResp : String → HttpResult Unit
  mergeResp : String → String → HttpResult Unit
  pullsCreateResp : String → PRCreateBody → HttpResult PRRespBody
  pullsListResp : String → String → String → HttpResult (List PRItem)
  probes : Nat → Probe

/-- Python `str.split(sep)` on character lists (single-character
separator). -/
def splitChars (sep : Char) : List Char → List (List Char)
  | [] => [[]]
  | c :: rest =>
    let r := splitChars sep rest
    if c == sep then [] :: r
    else (c :: r.headD []) :: r.tail

/-- Python `repo.split("/")`. -/
def strSplitSlash (s : String) : List String :=
  (splitChars '/' s.toList).map (fun l => String.mk l)

/-- ASCII lowercasing of one character (Python `str.lower` restricted to
the ASCII range the API messages use). -/
def charLower (c : Char) : Char :=
  if 65 ≤ c.toNat ∧ c.toNat ≤ 90 then Char.ofNat (c.toNat + 32) else c

/-- Python `s.lower()`. -/
def strLower (s : String) : String := String.mk (s.toList.map charLower)

/-- `GitHubClient.get_repo`: raise on transport failure or any non-200
status, otherwise return the body. -/
def get_repo (env : Env) (repo : String) : Except String RepoInfo × List Req :=
  match env.repoResp repo with
  | .netErr m => (.error m, [.getRepo repo])
  | .ok s body =>
      (if s ≠ 200 then .error ("Failed to get repo " ++ repo) else .ok body,
       [.getRepo repo])

/-- `GitHubClient.get_default_branch`: the repo's `default_branch` field,
defaulting to `"main"` when the field is absent. -/
def get_default_branch (env : Env) (repo : String) : Except String String × List Req :=
  let r := get_repo env repo
  (r.1.map (fun d => d.default_branch.getD ("main")), r.2)

/-- `RepoManager.sync_fork`: a failure to fetch the upstream default branch
is swallowed (returns `false`); the merge-upstream POST yields `true` on
200 or 409 and `false` on any other status.  A transport-level failure of
the POST itself is *not* caught and propagates (`Except.error`). -/
def sync_fork (env : Env) (fork_repo upstream_repo : String) :
    Except String Bool × List Req :=
  match get_default_branch env upstream_repo with
  | (.error _, tr) => (.ok false, tr)
  | (.ok default_branch, tr) =>
    match env.mergeResp fork_repo default_branch with
    | .netErr m => (.error m, tr ++ [.postMergeUpstream fork_repo default_branch])
    | .ok s _ =>
      (if s == 200 then .ok true
       else if s == 409 then .ok true
       else .ok false,
       tr ++ [.postMergeUpstream fork_repo default_branch])

inductive WaitResult where
  | ready (elapsed iter : Nat)
  | timedOut (elapsed : Nat)
  | netFailed (msg : String) (elapsed : Nat)
deriving DecidableEq, Repr

/-- The polling loop of `RepoManager.wait_for_fork`.  The logical clock
starts at 0 and advances by `poll_interval` at each `asyncio.sleep`; the
`while` guard compares the elapsed time against `fork_timeout` before each
probe.  A transport failure of either GET propagates out of the loop. -/
def waitLoop (probes : Nat → Probe) (fork_repo : String)
    (fork_timeout poll_interval : Nat) (hp : 0 < poll_interval)
    (k elapsed : Nat) : WaitResult × List Req :=
  if h : elapsed < fork_timeout then
    match (probes k).repo with
    | .netErr m => (.netFailed m elapsed, [.getRepo fork_repo])
    | .ok s _ =>
      if s == 200 then
        match (probes k).branches with
        | .netErr m => (.netFailed m elapsed, [.getRepo fork_repo, .getBranches fork_repo])
        | .ok bs lst =>
          if bs == 200 && !lst.isEmpty then
            (.ready elapsed k, [.getRepo fork_repo, .getBranches fork_repo])
          else
            let r := waitLoop probes fork_repo fork_timeout poll_interval hp
              (k + 1) (elapsed + poll_interval)
            (r.1, .getRepo fork_repo :: .getBranches fork_repo :: r.2)
      else
        let r := waitLoop probes fork_repo fork_timeout poll_interval hp
          (k + 1) (elapsed + poll_interval)
        (r.1, .getRepo fork_repo :: r.2)
  else (.timedOut elapsed, [])
termination_by fork_timeout - elapsed
decreasing_by all_goals omega

/-- `RepoManager.wait_for_fork`, started at clock 0. -/
def wait_for_fork (env : Env) (fork_repo : String)
    (fork_timeout poll_interval : Nat) (hp : 0 < poll_interval) :
    WaitResult × List Req :=
  waitLoop env.probes fork_repo fork_timeout poll_interval hp 0 0

/-- The distinct failure modes of `RepoManager.create_or_get_fork`, one per
raise site: the two `ValueError`s (malformed identifier; naming conflict),
the generic fork-creation `Exception`, `TimeoutError` from the wait loop,
and an uncaught transport-level error. -/
inductive RepoError where
  | invalidFormat (upstream : String)
  | conflict (fork_repo upstream : String)
  | forkCreateFailed (status : Nat)
  | timeout (fork_repo : String) (elapsed : Nat)
  | transport (msg : String)
deriving DecidableEq, Repr

/-- `RepoManager.create_or_get_fork`. -/
def create_or_get_fork (env : Env) (bot_username : String)
    (fork_timeout poll_interval : Nat) (hp : 0 < poll_interval)
    (upstream_repo : String) : Except RepoError String × List Req :=
  let parts := strSplitSlash upstream_repo
  if parts.length ≠ 2 then (.error (.invalidFormat upstream_repo), [])
  else
    let repo_name := parts.getD 1 ("")
    let fork_repo := bot_username ++ "/" ++ repo_name
    match env.repoResp fork_repo with
    | .netErr m => (.error (.transport m), [.getRepo fork_repo])
    | .ok s fork_data =>
      if s == 200 then
        if fork_data.fork && (fork_data.parent_full_name == some upstream_repo) then
          match sync_fork env fork_repo upstream_repo with
          | (.error m, tr) => (.error (.transport m), .getRepo fork_repo :: tr)
          | (.ok _, tr) => (.ok fork_repo, .getRepo fork_repo :: tr)
        else (.error (.conflict fork_repo upstream_repo), [.getRepo fork_repo])
      else
        match env.forksResp upstream_repo with
        | .netErr m => (.error (.transport m), [.getRepo fork_repo, .postForks upstream_repo])
        | .ok cs _ =>
          if cs == 202 || cs == 200 then
            match waitLoop env.probes fork_repo fork_timeout poll_interval hp 0 0 with
            | (.ready _ _, tr) =>
                (.ok fork_repo, .getRepo fork_repo :: .postForks upstream_repo :: tr)
            | (.timedOut e, tr) =>
                (.error (.timeout fork_repo e),
                 .getRepo fork_repo :: .postForks upstream_repo :: tr)
            | (.netFailed m _, tr) =>
                (.error (.transport m),
                 .getRepo fork_repo :: .postForks upstream_repo :: tr)
          else
            (.error (.forkCreateFailed cs), [.getRepo fork_repo, .postForks upstream_repo])

/-- Whether `pat` occurs as a contiguous run inside the character list. -/
def listContainsSeq (pat : List Char) : List Char → Bool
  | [] => pat.isEmpty
  | c :: rest => pat.isPrefixOf (c :: rest) || listContainsSeq pat rest

/-- Python `pat in s`: contiguous substring test. -/
def strContainsSub (s pat : String) : Bool := listContainsSeq pat.toList s.toList

/-- The case-insensitive "already exists" heuristic of `create_pr`. -/
def alreadyExistsIn (s : String) : Bool := strContainsSub (strLower s) ("already exists")

/-- `PRManager.find_existing_pr`: a 200 listing with at least one PR yields
the first PR's `html_url` (empty string when absent); anything else
raises. -/
def find_existing_pr (env : Env) (upstream_repo head state : String) :
    Except String String × List Req :=
  let req := Req.getPulls upstream_repo head state 1
  match env.pullsListResp upstream_repo head state with
  | .netErr m => (.error m, [req])
  | .ok s prs =>
    if s == 200 && !prs.isEmpty then
      (.ok ((prs.headD ⟨none⟩).html_url.getD ("")), [req])
    else (.error ("No existing PR found for head " ++ head), [req])

/-- `PRManager.create_pr`. -/
def create_pr (env : Env) (upstream_repo fork_repo branch title body : String) :
    Except String String × List Req :=
  match get_default_branch env upstream_repo with
  | (.error m, tr) => (.error m, tr)
  | (.ok base, tr) =>
    let fork_owner := (strSplitSlash fork_repo).headD ("")
    let head := fork_owner ++ ":" ++ branch
    let reqBody : PRCreateBody := ⟨title, head, base, body⟩
    let tr2 := tr ++ [Req.postPulls upstream_repo reqBody]
    match env.pullsCreateResp upstream_repo reqBody with
    | .netErr m => (.error m, tr2)
    | .ok s data =>
      if s == 201 then (.ok (data.html_url.getD ("")), tr2)
      else
        let message := data.message.getD ("")
        let error_messages := String.intercalate (" ") (data.errors.map (fun e => e.getD ("")))
        if alreadyExistsIn message || alreadyExistsIn error_messages then
          let r := find_existing_pr env upstream_repo head ("open")
          (r.1, tr2 ++ r.2)
        else (.error ("Failed to create PR"), tr2)

/-! ## Claim theorems -/

theorem sendAttempts_all_transient (outcomes : Nat → AttemptOutcome) :
    ∀ remaining attempt,
      (∀ i, attempt ≤ i → i < attempt + remaining → isTransient (outcomes i) = true) →
      sendAttempts outcomes attempt remaining = (false, remaining)
  | 0, _, _ => rfl
  | remaining + 1, attempt, htr => by
    have h0 : isTransient (outcomes attempt) = true :=
      htr attempt (Nat.le_refl _) (by omega)
    have ih : sendAttempts outcomes (attempt + 1) remaining = (false, remaining) :=
      sendAttempts_all_transient outcomes remaining (attempt + 1)
        (fun i h1 h2 => htr i (by omega) (by omega))
    cases hc : outcomes attempt with
    | response s =>
      rw [hc] at h0
      simp only [isTransient, Bool.and_eq_true, Bool.not_eq_true] at h0
      obtain ⟨h400, hts⟩ := h0
      simp only [sendAttempts, hc, ih]
      rw [if_neg (by simp_all [decide_eq_false_iff_not]), if_pos hts]
    | transportError =>
      simp only [sendAttempts, hc, ih]
    | otherError => rw [hc] at h0; simp [isTransient] at h0

/-- Claim C2: with a non-empty callback URL and `max_attempts = N ≥ 1`, if
every attempt's outcome is transient (429, 5xx, or a transport error) then
`send_callback` makes exactly `N` POST attempts and returns failure; if the
first attempt's response status is below 400 it makes exactly one attempt
and returns success. -/
theorem claim_C2_send_callback_retry_bound (callback_url payload : String)
    (outcomes : Nat → AttemptOutcome) (N : Nat)
    (hN : 1 ≤ N) (hurl : callback_url ≠ "") (hpl : payload ≠ "") :
    ((∀ i, 1 ≤ i → i ≤ N → isTransient (outcomes i) = true) →
      send_callback callback_url payload outcomes N = (false, N)) ∧
    (∀ s, outcomes 1 = .response s → s < 400 →
      send_callback callback_url payload outcomes N = (true, 1)) := by
  have hurlb : (callback_url == "") = false := by
    simp [hurl]
  constructor
  · intro htr
    rw [send_callback, hurlb, if_neg (by simp)]
    exact sendAttempts_all_transient outcomes N 1 (fun i h1 h2 => htr i h1 (by omega))
  · intro s hs hlt
    rw [send_callback, hurlb, if_neg (by simp)]
    obtain ⟨M, rfl⟩ : ∃ M, N = M + 1 := ⟨N - 1, by omega⟩
    simp only [sendAttempts, hs]
    rw [if_pos hlt]

theorem claim_C2_witness :
    send_callback ("http://consumer/cb") ("\x7b\x7d")
      (fun _ => AttemptOutcome.response 500) 3 = (false, 3) ∧
    send_callback ("http://consumer/cb") ("\x7b\x7d")
      (fun _ => AttemptOutcome.response 200) 3 = (true, 1) :=
  ⟨(claim_C2_send_callback_retry_bound ("http://consumer/cb") ("\x7b\x7d")
      (fun _ => .response 500) 3 (by decide) (by decide) (by decide)).1
      (fun i _ _ => by decide),
   (claim_C2_send_callback_retry_bound ("http://consumer/cb") ("\x7b\x7d")
      (fun _ => .response 200) 3 (by decide) (by decide) (by decide)).2 200 rfl (by decide)⟩

/-- Claim C8: classification of one loop attempt of `send_callback`.  With
at least one attempt remaining: a status below 400 stops with success after
this single attempt; a transient outcome (429/5xx response or transport
error) is retried when further attempts remain, and ends the loop with
failure when this was the last attempt; any other 4xx (or other non-success
status that is not 429/5xx) stops immediately with failure; any other
exception stops immediately with failure. -/
theorem claim_C8_attempt_classification (outcomes : Nat → AttemptOutcome)
    (attempt rem s : Nat) :
    (outcomes attempt = .response s → s < 400 →
       sendAttempts outcomes attempt (rem + 1) = (true, 1)) ∧
    (isTransient (outcomes attempt) = true →
       sendAttempts outcomes attempt (rem + 1) =
         ((sendAttempts outcomes (attempt + 1) rem).1,
          (sendAttempts outcomes (attempt + 1) rem).2 + 1)) ∧
    (isTransient (outcomes attempt) = true →
       sendAttempts outcomes attempt 1 = (false, 1)) ∧
    (outcomes attempt = .response s → ¬ s < 400 → ¬ (s = 429 ∨ 500 ≤ s) →
       sendAttempts outcomes attempt (rem + 1) = (false, 1)) ∧
    (outcomes attempt = .otherError →
       sendAttempts outcomes attempt (rem + 1) = (false, 1)) := by
  refine ⟨?_, ?_, ?_, ?_, ?_⟩
  · intro hc hlt
    simp only [sendAttempts, hc]
    rw [if_pos hlt]
  · intro htr
    cases hc : outcomes attempt with
    | response t =>
      rw [hc] at htr
      simp only [isTransient, Bool.and_eq_true, Bool.not_eq_true] at htr
      obtain ⟨h400, hts⟩ := htr
      simp only [sendAttempts, hc]
      rw [if_neg (by simp_all [decide_eq_false_iff_not]), if_pos hts]
    | transportError => simp only [sendAttempts, hc]
    | otherError => rw [hc] at htr; simp [isTransient] at htr
  · intro htr
    cases hc : outcomes attempt with
    | response t =>
      rw [hc] at htr
      simp only [isTransient, Bool.and_eq_true, Bool.not_eq_true] at htr
      obtain ⟨h400, hts⟩ := htr
      simp only [sendAttempts, hc]
      rw [if_neg (by simp_all [decide_eq_false_iff_not]), if_pos hts]
    | transportError => simp only [sendAttempts, hc]
    | otherError => rw [hc] at htr; simp [isTransient] at htr
  · intro hc hge hnt
    simp only [sendAttempts, hc]
    rw [if_neg hge, if_neg (by simp; omega)]
  · intro hc
    simp only [sendAttempts, hc]

theorem claim_C8_witness :
    sendAttempts (fun _ => AttemptOutcome.response 201) 1 3 = (true, 1) ∧
    sendAttempts (fun _ => AttemptOutcome.transportError) 1 3 =
      ((sendAttempts (fun _ => AttemptOutcome.transportError) 2 2).1,
       (sendAttempts (fun _ => AttemptOutcome.transportError) 2 2).2 + 1) ∧
    sendAttempts (fun _ => AttemptOutcome.response 429) 5 1 = (false, 1) ∧
    sendAttempts (fun _ => AttemptOutcome.response 404) 1 3 = (false, 1) ∧
    sendAttempts (fun _ => AttemptOutcome.otherError) 1 3 = (false, 1) :=
  ⟨(claim_C8_attempt_classification (fun _ => .response 201) 1 2 201).1 rfl (by decide),
   (claim_C8_attempt_classification (fun _ => .transportError) 1 2 0).2.1 (by decide),
   (claim_C8_attempt_classification (fun _ => .response 429) 5 0 429).2.2.1 (by decide),
   (claim_C8_attempt_classification (fun _ => .response 404) 1 2 404).2.2.2.1 rfl
     (by decide) (by decide),
   (claim_C8_attempt_classification (fun _ => .otherError) 1 2 0).2.2.2.2 rfl⟩

/-- The job reached by constructing a fresh job at times 0, 0 and then
calling `update_status(FAILED)` at time 1. -/
def cexJob : Job :=
  (Job.new ("job-1") ("octo/demo") ("fix typo") none 0 0).applyOp
    (.updateStatus .failed) 1

/-- Claim C4 counterexample: `update_status(JobStatus.FAILED)` on a fresh
job is a reachable mutation sequence that yields `status = FAILED` with
`error` unset, violating the claimed invariant. -/
theorem claim_C4_counterexample : JobReachable cexJob ∧ ¬ jobInvariant cexJob := by
  constructor
  · exact JobReachable.step (Job.new ("job-1") ("octo/demo") ("fix typo") none 0 0)
      (.updateStatus .failed) 1
      (JobReachable.new ("job-1") ("octo/demo") ("fix typo") none 0 0 (Nat.le_refl 0))
      (Nat.zero_le 1)
  · intro hinv
    exact absurd (hinv.2.1.mpr rfl) (by decide)

/-- Operations the orchestrator uses in non-terminal flow: `update_status`
with any status other than FAILED. -/
def benignOp : JobOp → Bool
  | .updateStatus s => s != .failed
  | _ => false

/-- The two terminal-marking operations. -/
def terminalOp : JobOp → Bool
  | .markCompleted _ => true
  | .markFailed _ => true
  | .updateStatus _ => false

/-- Mutation sequences matching the orchestrator's driving logic: any run
of non-FAILED `update_status` calls, optionally finished by one
`mark_completed` or `mark_failed`, with nothing after a terminal mark. -/
def orchestratedOps : List (JobOp × Nat) → Bool
  | [] => true
  | [(op, _)] => benignOp op || terminalOp op
  | (op, _) :: rest => benignOp op && orchestratedOps rest

/-- States the orchestrator passes through before a terminal mark. -/
def preTerminal (j : Job) : Prop :=
  j.error = none ∧ j.pr_url = none ∧ j.created_at ≤ j.updated_at ∧ j.status ≠ .failed

theorem preTerminal_invariant {j : Job} (h : preTerminal j) : jobInvariant j := by
  obtain ⟨he, hp, hc, hs⟩ := h
  refine ⟨hc, ?_, ?_⟩
  · rw [he]; simp [hs]
  · rw [hp]; simp

theorem applyOps_invariant : ∀ (ops : List (JobOp × Nat)) (j : Job),
    preTerminal j → orchestratedOps ops = true → clockMono j ops = true →
    jobInvariant (j.applyOps ops)
  | [], j, hpre, _, _ => preTerminal_invariant hpre
  | [(op, t)], j, hpre, hops, hclk => by
    obtain ⟨he, hp, hc, hs⟩ := hpre
    have hct : j.updated_at ≤ t := by
      simp only [clockMono, Bool.and_eq_true, decide_eq_true_eq] at hclk
      exact hclk.1
    simp only [orchestratedOps, Bool.or_eq_true] at hops
    cases op with
    | updateStatus s =>
      have hsf : s ≠ .failed := by
        rcases hops with h1 | h1
        · simpa [benignOp] using h1
        · simp [terminalOp] at h1
      refine preTerminal_invariant ?_
      exact ⟨he, hp, by simp [Job.applyOps, Job.applyOp, Job.update_status]; omega,
        by simpa [Job.applyOps, Job.applyOp, Job.update_status] using hsf⟩
    | markCompleted pr =>
      refine ⟨?_, ?_, ?_⟩
      · simp [Job.applyOps, Job.applyOp, Job.mark_completed]; omega
      · simp [Job.applyOps, Job.applyOp, Job.mark_completed, he]
      · simp [Job.applyOps, Job.applyOp, Job.mark_completed]
    | markFailed e =>
      refine ⟨?_, ?_, ?_⟩
      · simp [Job.applyOps, Job.applyOp, Job.mark_failed]; omega
      · simp [Job.applyOps, Job.applyOp, Job.mark_failed]
      · simp [Job.applyOps, Job.applyOp, Job.mark_failed, hp]
  | (op, t) :: next :: rest, j, hpre, hops, hclk => by
    obtain ⟨he, hp, hc, hs⟩ := hpre
    simp only [orchestratedOps, Bool.and_eq_true] at hops
    rw [clockMono, Bool.and_eq_true, decide_eq_true_eq] at hclk
    cases op with
    | updateStatus s =>
      have hsf : s ≠ .failed := by simpa [benignOp] using hops.1
      have hpre2 : preTerminal (j.applyOp (.updateStatus s) t) := by
        refine ⟨he, hp, ?_, ?_⟩
        · simp [Job.applyOp, Job.update_status]; omega
        · simpa [Job.applyOp, Job.update_status] using hsf
      exact applyOps_invariant (next :: rest) _ hpre2 hops.2 hclk.2
    | markCompleted pr => simp [benignOp] at hops
    | markFailed e => simp [benignOp] at hops

/-- Claim C4 (amended): the invariant `updated_at ≥ created_at`, `error`
set iff FAILED, `pr_url` set only if COMPLETED holds for every job
reachable from a fresh construction by an orchestrator-shaped mutation
sequence — non-FAILED `update_status` calls optionally finished by one
`mark_completed` or `mark_failed` — under a monotone clock.  (Unrestricted
sequences violate it, e.g. `update_status(FAILED)`.) -/
theorem claim_C4_job_invariant (job_id upstream_repo prompt : String)
    (callback_url : Option String) (t0 t1 : Nat) (ops : List (JobOp × Nat))
    (h01 : t0 ≤ t1) (hops : orchestratedOps ops = true)
    (hclk : clockMono (Job.new job_id upstream_repo prompt callback_url t0 t1) ops = true) :
    jobInvariant ((Job.new job_id upstream_repo prompt callback_url t0 t1).applyOps ops) :=
  applyOps_invariant ops _ ⟨rfl, rfl, h01, fun h => JobStatus.noConfusion h⟩ hops hclk

theorem claim_C4_witness :
    jobInvariant ((Job.new ("job-1") ("octo/demo") ("fix typo") none 0 1).applyOps
      [(JobOp.updateStatus .forking, 2), (JobOp.markFailed ("boom"), 3)]) :=
  claim_C4_job_invariant ("job-1") ("octo/demo") ("fix typo") none 0 1
    [(JobOp.updateStatus .forking, 2), (JobOp.markFailed ("boom"), 3)]
    (by decide) (by decide) (by decide)

/-- Claim C5 (amended): `sync_fork` swallows any failure to fetch the
upstream default branch (returning `false`), and when the merge-upstream
POST completes with an HTTP status it never raises: it returns `true`
exactly on status 200 or 409 and `false` on every other status.  (A
transport-level failure of the merge POST itself is outside the `try` block
and propagates.) -/
theorem claim_C5_sync_fork_soft_failure (env : Env) (fork_repo upstream_repo : String) :
    (∀ m, (get_default_branch env upstream_repo).1 = .error m →
       (sync_fork env fork_repo upstream_repo).1 = .ok false) ∧
    (∀ b s u, (get_default_branch env upstream_repo).1 = .ok b →
       env.mergeResp fork_repo b = .ok s u →
       (sync_fork env fork_repo upstream_repo).1 = .ok (s == 200 || s == 409)) := by
  constructor
  · intro m hm
    rcases hdb : get_default_branch env upstream_repo with ⟨db, tr⟩
    rw [hdb] at hm
    simp only at hm
    rw [sync_fork, hdb, hm]
  · intro b s u hb hm
    rcases hdb : get_default_branch env upstream_repo with ⟨db, tr⟩
    rw [hdb] at hb
    simp only at hb
    rw [sync_fork, hdb, hb]
    simp only [hm]
    rcases Nat.decEq s 200 with h200 | h200
    · rw [if_neg (by simpa using h200)]
      rcases Nat.decEq s 409 with h409 | h409
      · rw [if_neg (by simpa using h409)]
        simp [h200, h409]
      · subst h409; simp
    · subst h200; simp

/-- A remote whose merge-upstream endpoint fails at transport level. -/
def c5env : Env :=
  { repoResp := fun _ => .ok 200 ⟨some ("main"), true, some ("octo/demo")⟩,
    forksResp := fun _ => .ok 202 (),
    mergeResp := fun _ _ => .netErr ("connection reset"),
    pullsCreateResp := fun _ _ => .ok 201 ⟨none, none, []⟩,
    pullsListResp := fun _ _ _ => .ok 200 [],
    probes := fun _ => ⟨.ok 200 (), .ok 200 [("main")]⟩ }

/-- Claim C5 counterexample: when the merge-upstream POST fails at
transport level, `sync_fork` raises (`httpx.RequestError` propagates)
instead of returning `false` — it does not hold that it never raises to
its caller. -/
theorem claim_C5_counterexample :
    (sync_fork c5env ("agent-bot/demo") ("octo/demo")).1 =
      .error ("connection reset") := rfl

/-- A healthy remote whose repo metadata lacks `default_branch` and whose
merge endpoint reports "already up to date" (409). -/
def okEnv : Env :=
  { repoResp := fun _ => .ok 200 ⟨none, true, some ("octo/demo")⟩,
    forksResp := fun _ => .ok 202 (),
    mergeResp := fun _ _ => .ok 409 (),
    pullsCreateResp := fun _ _ => .ok 201 ⟨none, none, []⟩,
    pullsListResp := fun _ _ _ => .ok 200 [⟨none⟩],
    probes := fun _ => ⟨.ok 404 (), .ok 404 []⟩ }

theorem claim_C5_witness :
    (sync_fork okEnv ("agent-bot/demo") ("octo/demo")).1 = .ok true :=
  (claim_C5_sync_fork_soft_failure okEnv ("agent-bot/demo") ("octo/demo")).2
    ("main") 409 () rfl rfl

/-- Claim C6: when the GET on the candidate fork path returns 200 but the
repository there is not a fork whose parent is `upstream_repo`,
`create_or_get_fork` fails with the naming-conflict error (the distinct
`ValueError` raise site for conflicts), and the only request it has issued
is the read-only GET — nothing that mutates, overwrites, or deletes the
existing repository. -/
theorem claim_C6_conflict_no_overwrite (env : Env) (bot_username : String)
    (fork_timeout poll_interval : Nat) (hp : 0 < poll_interval)
    (upstream_repo fr : String)
    (hfmt : (strSplitSlash upstream_repo).length = 2)
    (hfr : fr = bot_username ++ "/" ++ (strSplitSlash upstream_repo).getD 1 (""))
    (data : RepoInfo) (hrepo : env.repoResp fr = .ok 200 data)
    (hcond : (data.fork && (data.parent_full_name == some upstream_repo)) = false) :
    create_or_get_fork env bot_username fork_timeout poll_interval hp upstream_repo =
      (.error (.conflict fr upstream_repo), [Req.getRepo fr]) ∧
    ∀ r ∈ (create_or_get_fork env bot_username fork_timeout poll_interval hp
      upstream_repo).2, mutatesRemote r = false := by
  subst hfr
  have hmain : create_or_get_fork env bot_username fork_timeout poll_interval hp
      upstream_repo =
      (.error (.conflict (bot_username ++ "/" ++ (strSplitSlash upstream_repo).getD 1 (""))
        upstream_repo),
       [Req.getRepo (bot_username ++ "/" ++ (strSplitSlash upstream_repo).getD 1 (""))]) := by
    rw [create_or_get_fork, if_neg (by omega)]
    dsimp only
    rw [hrepo]
    simp [hcond]
  refine ⟨hmain, ?_⟩
  rw [hmain]
  intro r hr
  simp only [List.mem_singleton] at hr
  rw [hr]
  rfl

/-- A remote where the candidate fork path is occupied by an unrelated,
non-fork repository. -/
def conflictEnv : Env :=
  { repoResp := fun _ => .ok 200 ⟨some ("main"), false, none⟩,
    forksResp := fun _ => .ok 202 (),
    mergeResp := fun _ _ => .ok 200 (),
    pullsCreateResp := fun _ _ => .ok 201 ⟨none, none, []⟩,
    pullsListResp := fun _ _ _ => .ok 200 [],
    probes := fun _ => ⟨.ok 200 (), .ok 200 [("main")]⟩ }

theorem claim_C6_witness :
    create_or_get_fork conflictEnv ("agent-bot") 120 5 (by decide) ("octo/demo") =
      (.error (.conflict ("agent-bot/demo") ("octo/demo")),
       [Req.getRepo ("agent-bot/demo")]) ∧
    ∀ r ∈ (create_or_get_fork conflictEnv ("agent-bot") 120 5 (by decide)
      ("octo/demo")).2, mutatesRemote r = false :=
  claim_C6_conflict_no_overwrite conflictEnv ("agent-bot") 120 5 (by decide)
    ("octo/demo") ("agent-bot/demo") (by decide) (by decide)
    ⟨some ("main"), false, none⟩ rfl (by decide)

/-- The readiness condition of one wait-loop iteration: repo GET 200 and a
200 branch listing that is non-empty. -/
def probeReady (pr : Probe) : Bool :=
  match pr.repo, pr.branches with
  | .ok s _, .ok bs lst => s == 200 && (bs == 200 && !lst.isEmpty)
  | _, _ => false

theorem waitLoop_never_ready (probes : Nat → Probe) (fork_repo : String)
    (T p : Nat) (hp : 0 < p)
    (hnr : ∀ k, probeReady (probes k) = false)
    (hnet : ∀ k, (∃ s, (probes k).repo = .ok s ()) ∧
                 ∃ bs lst, (probes k).branches = .ok bs lst) :
    ∀ n k elapsed, elapsed < T + p → T ≤ elapsed + n * p →
      ∃ t, (waitLoop probes fork_repo T p hp k elapsed).1 = .timedOut t ∧
        T ≤ t ∧ t < T + p := by
  intro n
  induction n with
  | zero =>
    intro k elapsed hub hlb
    simp only [Nat.zero_mul, Nat.add_zero] at hlb
    refine ⟨elapsed, ?_, hlb, hub⟩
    rw [waitLoop, dif_neg (by omega)]
  | succ n ih =>
    intro k elapsed hub hlb
    rcases Nat.lt_or_ge elapsed T with hlt | hge
    · obtain ⟨⟨s, hs⟩, ⟨bs, lst, hbs⟩⟩ := hnet k
      have hnrk := hnr k
      rw [probeReady, hs, hbs] at hnrk
      dsimp only at hnrk
      rw [Nat.succ_mul] at hlb
      rw [waitLoop, dif_pos hlt, hs]
      dsimp only
      by_cases h200 : (s == 200) = true
      · rw [if_pos h200, hbs]
        dsimp only
        rw [h200, Bool.true_and] at hnrk
        rw [if_neg (by simp [hnrk])]
        dsimp only
        exact ih (k + 1) (elapsed + p) (by omega) (by omega)
      · rw [if_neg h200]
        dsimp only
        exact ih (k + 1) (elapsed + p) (by omega) (by omega)
    · refine ⟨elapsed, ?_, hge, hub⟩
      rw [waitLoop, dif_neg (by omega)]

/-- Claim C7 (amended): when no probe ever yields status 200 together with
a non-empty branch listing, and every probe completes with an HTTP
response (no transport failure, which would instead propagate as a raised
`httpx.RequestError`), `wait_for_fork` with deadline `T` and positive poll
interval `p` raises `TimeoutError` no earlier than `T` and no later than
`T + p` after its start. -/
theorem claim_C7_wait_for_fork_timeout (env : Env) (fork_repo : String)
    (T p : Nat) (hp : 0 < p)
    (hnr : ∀ k, probeReady (env.probes k) = false)
    (hnet : ∀ k, (∃ s, (env.probes k).repo = .ok s ()) ∧
                 ∃ bs lst, (env.probes k).branches = .ok bs lst) :
    ∃ t, (wait_for_fork env fork_repo T p hp).1 = .timedOut t ∧
      T ≤ t ∧ t ≤ T + p := by
  obtain ⟨t, h1, h2, h3⟩ :=
    waitLoop_never_ready env.probes fork_repo T p hp hnr hnet T 0 0
      (by omega) (by have := Nat.le_mul_of_pos_right T hp; omega)
  exact ⟨t, h1, h2, by omega⟩

/-- A remote where every wait-loop probe fails at transport level: such a
remote is never ready, yet the loop does not reach its deadline. -/
def c7env : Env :=
  { repoResp := fun _ => .ok 404 ⟨none, false, none⟩,
    forksResp := fun _ => .ok 202 (),
    mergeResp := fun _ _ => .ok 200 (),
    pullsCreateResp := fun _ _ => .ok 201 ⟨none, none, []⟩,
    pullsListResp := fun _ _ _ => .ok 200 [],
    probes := fun _ => ⟨.netErr ("connection reset"), .netErr ("connection reset")⟩ }

/-- No probe of `c7env` ever yields status 200 with a non-empty branch
listing. -/
def c7NeverReady : Prop := ∀ k, probeReady (c7env.probes k) = false

/-- Claim C7 counterexample: against `c7env` — a remote that is never
ready — `wait_for_fork` with deadline 10 and poll interval 5 does not
raise `TimeoutError`: the first probe's transport failure propagates
immediately as a raised `httpx.RequestError` instead. -/
theorem claim_C7_counterexample :
    c7NeverReady ∧
    (wait_for_fork c7env ("agent-bot/demo") 10 5 (by decide)).1 =
      .netFailed ("connection reset") 0 := by
  refine ⟨fun k => rfl, ?_⟩
  rw [wait_for_fork, waitLoop, dif_pos (by decide)]
  rfl

theorem claim_C7_witness :
    ∃ t, (wait_for_fork okEnv ("agent-bot/demo") 10 5 (by decide)).1 =
      .timedOut t ∧ 10 ≤ t ∧ t ≤ 15 :=
  claim_C7_wait_for_fork_timeout okEnv ("agent-bot/demo") 10 5 (by decide)
    (fun k => rfl) (fun k => ⟨⟨404, rfl⟩, 404, [], rfl⟩)

/-- Claim C3: when the PR-creation POST completes with a non-201 status
whose top-level message or joined per-field error messages contain
"already exists" (case-insensitively), `create_pr` returns exactly the
result of `find_existing_pr` for the same repository and the same
`<fork_owner>:<branch>` head reference with the open-state discovery
query. -/
theorem claim_C3_pr_idempotency (env : Env)
    (upstream_repo fork_repo branch title body base : String)
    (s : Nat) (data : PRRespBody)
    (hbase : (get_default_branch env upstream_repo).1 = .ok base)
    (hresp : env.pullsCreateResp upstream_repo
      ⟨title, (strSplitSlash fork_repo).headD ("") ++ ":" ++ branch, base, body⟩ =
      .ok s data)
    (hs : s ≠ 201)
    (hmsg : (alreadyExistsIn (data.message.getD ("")) ||
             alreadyExistsIn (String.intercalate (" ")
               (data.errors.map (fun e => e.getD (""))))) = true) :
    (create_pr env upstream_repo fork_repo branch title body).1 =
      (find_existing_pr env upstream_repo
        ((strSplitSlash fork_repo).headD ("") ++ ":" ++ branch) ("open")).1 := by
  rcases hdb : get_default_branch env upstream_repo with ⟨db, tr⟩
  rw [hdb] at hbase
  dsimp only at hbase
  subst hbase
  rw [create_pr, hdb]
  dsimp only
  rw [hresp]
  dsimp only
  rw [if_neg (by simp [hs]), if_pos hmsg]

/-- A remote that answers PR creation with an "already exists" failure and
lists one existing open PR for the head. -/
def c3env : Env :=
  { repoResp := fun _ => .ok 200 ⟨some ("main"), true, some ("octo/demo")⟩,
    forksResp := fun _ => .ok 202 (),
    mergeResp := fun _ _ => .ok 200 (),
    pullsCreateResp := fun _ _ => .ok 422
      ⟨none, some ("Validation Failed"),
       [some ("A pull request already exists for agent-bot:fix.")]⟩,
    pullsListResp := fun _ _ _ => .ok 200
      [⟨some ("https://github.com/octo/demo/pull/7")⟩],
    probes := fun _ => ⟨.ok 200 (), .ok 200 [("main")]⟩ }

theorem claim_C3_witness :
    (create_pr c3env ("octo/demo") ("agent-bot/demo") ("fix") ("t") ("b")).1 =
      (find_existing_pr c3env ("octo/demo")
        ((strSplitSlash ("agent-bot/demo")).headD ("") ++ ":" ++ "fix") ("open")).1 :=
  claim_C3_pr_idempotency c3env ("octo/demo") ("agent-bot/demo") ("fix") ("t") ("b")
    ("main") 422
    ⟨none, some ("Validation Failed"),
     [some ("A pull request already exists for agent-bot:fix.")]⟩
    rfl rfl (by decide) (by decide)

/-- Claim C9: a 200 repo response whose body lacks `default_branch` makes
`get_default_branch` return `"main"`; consequently `create_pr` POSTs its
pull request with base `"main"`, and `sync_fork` POSTs a merge-upstream
request for branch `"main"`. -/
theorem claim_C9_default_branch_fallback (env : Env)
    (upstream_repo fork_repo branch title body : String)
    (data : RepoInfo) (hrepo : env.repoResp upstream_repo = .ok 200 data)
    (hdb : data.default_branch = none) :
    (get_default_branch env upstream_repo).1 = .ok ("main") ∧
    (∃ rest, (create_pr env upstream_repo fork_repo branch title body).2 =
      Req.getRepo upstream_repo ::
        Req.postPulls upstream_repo
          ⟨title, (strSplitSlash fork_repo).headD ("") ++ ":" ++ branch, "main", body⟩ ::
        rest) ∧
    (sync_fork env fork_repo upstream_repo).2 =
      [Req.getRepo upstream_repo, Req.postMergeUpstream fork_repo ("main")] := by
  have hfull : get_default_branch env upstream_repo =
      (Except.ok ("main"), [Req.getRepo upstream_repo]) := by
    rw [get_default_branch, get_repo, hrepo]
    simp [hdb, Except.map]
  refine ⟨by rw [hfull], ?_, ?_⟩
  · rw [create_pr, hfull]
    dsimp only
    rcases env.pullsCreateResp upstream_repo
        ⟨title, (strSplitSlash fork_repo).headD ("") ++ ":" ++ branch, "main", body⟩ with
      ⟨s2, data2⟩ | m
    · dsimp only
      by_cases h201 : (s2 == 201) = true
      · rw [if_pos h201]
        exact ⟨[], rfl⟩
      · rw [if_neg h201]
        by_cases hae : (alreadyExistsIn (data2.message.getD ("")) ||
            alreadyExistsIn (String.intercalate (" ")
              (data2.errors.map (fun e => e.getD (""))))) = true
        · rw [if_pos hae]
          exact ⟨(find_existing_pr env upstream_repo
            ((strSplitSlash fork_repo).headD ("") ++ ":" ++ branch) ("open")).2, rfl⟩
        · rw [if_neg hae]
          exact ⟨[], rfl⟩
    · exact ⟨[], rfl⟩
  · rw [sync_fork, hfull]
    dsimp only
    rcases env.mergeResp fork_repo ("main") with ⟨s3, u⟩ | m
    · rfl
    · rfl

theorem claim_C9_witness :
    (get_default_branch okEnv ("octo/demo")).1 = .ok ("main") ∧
    (∃ rest, (create_pr okEnv ("octo/demo") ("agent-bot/demo") ("fix") ("t") ("b")).2 =
      Req.getRepo ("octo/demo") ::
        Req.postPulls ("octo/demo") ⟨"t", "agent-bot:fix", "main", "b"⟩ :: rest) ∧
    (sync_fork okEnv ("agent-bot/demo") ("octo/demo")).2 =
      [Req.getRepo ("octo/demo"), Req.postMergeUpstream ("agent-bot/demo") ("main")] :=
  claim_C9_default_branch_fallback okEnv ("octo/demo") ("agent-bot/demo")
    ("fix") ("t") ("b") ⟨none, true, some ("octo/demo")⟩ rfl rfl

/-- Claim C10: the PR operations return `Except.ok` strings, never a null
value, but the string may be empty: a 201 creation response without
`html_url` makes `create_pr` return `""`, and a successful discovery whose
first PR lacks `html_url` makes `find_existing_pr` return `""`. -/
theorem claim_C10_empty_url_fallback (env : Env)
    (upstream_repo fork_repo branch title body head state : String) :
    (∀ data base, (get_default_branch env upstream_repo).1 = .ok base →
       env.pullsCreateResp upstream_repo
         ⟨title, (strSplitSlash fork_repo).headD ("") ++ ":" ++ branch, base, body⟩ =
         .ok 201 data →
       data.html_url = none →
       (create_pr env upstream_repo fork_repo branch title body).1 = .ok ("")) ∧
    (∀ prs, env.pullsListResp upstream_repo head state = .ok 200 (⟨none⟩ :: prs) →
       (find_existing_pr env upstream_repo head state).1 = .ok ("")) := by
  constructor
  · intro data base hbase hresp hurl
    rcases hdb : get_default_branch env upstream_repo with ⟨db, tr⟩
    rw [hdb] at hbase
    dsimp only at hbase
    subst hbase
    rw [create_pr, hdb]
    dsimp only
    rw [hresp]
    dsimp only
    rw [if_pos (by simp), hurl]
    rfl
  · intro prs hlist
    rw [find_existing_pr, hlist]
    dsimp only
    rw [if_pos (by simp)]
    rfl

theorem claim_C10_witness :
    (create_pr okEnv ("octo/demo") ("agent-bot/demo") ("fix") ("t") ("b")).1 =
      .ok ("") ∧
    (find_existing_pr okEnv ("octo/demo") ("agent-bot:fix") ("open")).1 = .ok ("") :=
  ⟨(claim_C10_empty_url_fallback okEnv ("octo/demo") ("agent-bot/demo") ("fix")
      ("t") ("b") ("agent-bot:fix") ("open")).1 ⟨none, none, []⟩ ("main") rfl rfl rfl,
   (claim_C10_empty_url_fallback okEnv ("octo/demo") ("agent-bot/demo") ("fix")
      ("t") ("b") ("agent-bot:fix") ("open")).2 [] rfl⟩
